import Mathlib

/-!
Verification of the query-pipeline contract of the Częstochowa city-guide
RAG system.  The Python modules `rag/pipeline.py`, `rag/llm.py`,
`rag/vector_store.py` and `config.py` are shallowly embedded: pure functions
become Lean functions, the mutable `_llm_available` cache becomes explicit
state passing, network calls (the Ollama HTTP API and the ChromaDB
nearest-neighbour query) become oracle fields of an environment record, and
Python exceptions become `Except` values that the embedded code eliminates
exactly where the source has `try`/`except`.
-/

namespace CityGuide

/-! ## Python string primitives

Python string operations used by the source, modelled on the Unicode
code-point sequence (`String.data`). -/

/-- Python `str.strip()`: remove leading and trailing whitespace. -/
def pyStrip (s : String) : String :=
  ⟨((s.data.dropWhile Char.isWhitespace).reverse.dropWhile Char.isWhitespace).reverse⟩

/-- Python `s.startswith(pre)`. -/
def pyStartsWith (s pre : String) : Bool :=
  pre.data.isPrefixOf s.data

/-- Python `s.split(":")[0]`: the text before the first colon
(the whole string when no colon occurs). -/
def pySplitColonHead (s : String) : String :=
  ⟨s.data.takeWhile (fun c => c != ':')⟩

/-- Python `s[:n]`: the first `n` code points of `s` (all of `s` when it is
shorter). -/
def pyTake (s : String) (n : Nat) : String :=
  ⟨s.data.take n⟩

/-- Lexicographic comparison of code-point sequences: Python `<=` on `str`. -/
def charListLe : List Char → List Char → Bool
  | [], _ => true
  | _ :: _, [] => false
  | a :: as, b :: bs =>
    if a.toNat < b.toNat then true
    else if b.toNat < a.toNat then false
    else charListLe as bs

/-- Python string comparison `s <= t`. -/
def strLe (s t : String) : Bool := charListLe s.data t.data

/-- Insert into a list sorted by `strLe`. -/
def sortInsert (a : String) : List String → List String
  | [] => [a]
  | b :: l => if strLe a b then a :: b :: l else b :: sortInsert a l

/-- Python `sorted()` on a list of strings, as insertion sort. -/
def sortStrings (l : List String) : List String := l.foldr sortInsert []

/-! ## Configuration (`config.py`) -/

/-- From `config.py`: `TOP_K_RESULTS = 3`. -/
def TOP_K_RESULTS : Nat := 3

/-- From `config.py`: `OLLAMA_MODEL = "gemma:7b"`. -/
def OLLAMA_MODEL : String := "gemma:7b"

/-- From `config.py`: `OLLAMA_BASE_URL`. -/
def OLLAMA_BASE_URL : String := "http://localhost:11434"

/-! ## Data model -/

/-- The metadata dictionary attached to an indexed document.  Every field is
optional because `pipeline.py` reads the fields with `dict.get` defaults. -/
structure Metadata where
  name : Option String
  category : Option String
  rating : Option ℚ
deriving DecidableEq

/-- One formatted result of `VectorStore.search`
(`vector_store.py`, `search`): `{document, metadata, distance, id}`. -/
structure RetrievedDoc where
  document : String
  metadata : Metadata
  distance : ℚ
  id : Option String
deriving DecidableEq

/-! ## Network environment

The Ollama HTTP API is an external collaborator; its behaviour is an oracle.
An `Except.error` models a `requests.RequestException` (connection failure,
timeout); an `Except.ok` carries the parsed reply. -/

/-- Parsed reply of `GET /api/tags`: HTTP status and the model name list. -/
structure TagsResp where
  status : Nat
  models : List String
deriving DecidableEq

/-- Parsed reply of the non-streaming `POST /api/generate`: HTTP status and
the optional `response` field of the JSON body. -/
structure GenResp where
  status : Nat
  response : Option String
deriving DecidableEq

/-- One parsed JSON line of a streaming reply: optional `response` field and
the `done` flag. -/
structure StreamLine where
  response : Option String
  done : Bool
deriving DecidableEq

/-- Parsed streaming reply: HTTP status and the JSON lines. -/
structure StreamResp where
  status : Nat
  lines : List StreamLine
deriving DecidableEq

/-- The network oracle: outcomes of the three HTTP calls the `LLM` client
makes.  `post` and `postStream` take the model name and the full prompt. -/
structure NetEnv where
  tags : Except String TagsResp
  post : String → String → Except String GenResp
  postStream : String → String → Except String StreamResp

/-! ## `rag/llm.py` -/

/-- The `LLM` client configuration (`llm.py`, `__init__`). -/
structure LLM where
  model : String
  base_url : String

/-- From `llm.py`, `is_available`: probe `GET /api/tags`; on HTTP 200 accept when
some listed model name equals `self.model` or starts with
`self.model.split(":")[0]`; any `RequestException` yields `False`. -/
def LLM.is_available (llm : LLM) (env : NetEnv) : Bool :=
  match env.tags with
  | .error _ => false
  | .ok r =>
    if r.status = 200 then
      r.models.any fun name =>
        (name == llm.model) || pyStartsWith name (pySplitColonHead llm.model)
    else false

/-- From `llm.py`, `_build_rag_prompt`: the fixed RAG prompt template. -/
def LLM.build_rag_prompt (question context : String) : String :=
  "You are a friendly and helpful tourist guide for Częstochowa, Poland.\n\nINSTRUCTIONS:\n1. Answer the question using ONLY the information from the Context below.\n2. If the context contains relevant information, provide a helpful answer with specific details (names, addresses, ratings).\n3. If the context contains RELATED information (e.g., user asks about \"Jasna Góra\" and context mentions \"Wieża Jasnogórska\" or related sites), use that information and explain the connection.\n4. Be conversational and helpful. Recommend the best options based on ratings.\n5. If you truly cannot find relevant information, politely say so and suggest what IS available.\n\nContext:\n" ++ context ++ "\n\nQuestion: " ++ question ++ "\n\nAnswer:"

/-- The fallible body of `LLM.generate`: the `POST /api/generate` call,
`raise_for_status`, and extraction of `result.get("response", "").strip()`.
An `Except.error` is exactly a `requests.RequestException` escaping the
`try` block. -/
def LLM.generateRaw (llm : LLM) (env : NetEnv) (fullPrompt : String) :
    Except String String :=
  match env.post llm.model fullPrompt with
  | .error e => .error e
  | .ok resp =>
    if 400 ≤ resp.status then .error ("HTTP status " ++ toString resp.status)
    else .ok (pyStrip (resp.response.getD ""))

/-- From `llm.py`, `generate`: build the full prompt (the RAG template when a
context is given, the bare prompt otherwise), run the fallible body, and
catch every `RequestException`, converting it into an error-message string. -/
def LLM.generate (llm : LLM) (env : NetEnv) (prompt context : String) : String :=
  let fullPrompt :=
    if context = "" then prompt else LLM.build_rag_prompt prompt context
  match llm.generateRaw env fullPrompt with
  | .ok s => s
  | .error e => "Error communicating with Ollama: " ++ e

/-- The chunk sequence read off the parsed JSON lines of a streaming reply
(`llm.py`, `generate_stream` loop): the `response` field of each line is yielded
when present, and iteration stops after the first line with `done = true`. -/
def streamChunks : List StreamLine → List String
  | [] => []
  | l :: ls =>
    (match l.response with
     | some r => [r]
     | none => []) ++ (if l.done then [] else streamChunks ls)

/-- From `llm.py`, `generate_stream`: build the full prompt, open the streaming
POST, and yield the chunks; a `RequestException` (including
`raise_for_status`) is caught and yields a single `"Error: ..."` chunk. -/
def LLM.generate_stream (llm : LLM) (env : NetEnv) (prompt context : String) :
    List String :=
  let fullPrompt :=
    if context = "" then prompt else LLM.build_rag_prompt prompt context
  match env.postStream llm.model fullPrompt with
  | .error e => ["Error: " ++ e]
  | .ok resp =>
    if 400 ≤ resp.status then ["Error: HTTP status " ++ toString resp.status]
    else streamChunks resp.lines

/-! ## `rag/vector_store.py` -/

/-- One entry of the ChromaDB collection as `collection.get` reports it:
the document text and its (possibly `None`) metadata dictionary. -/
structure CollEntry where
  document : String
  metadata : Option Metadata
deriving DecidableEq

/-- The vector store: the persisted collection (created by
`get_or_create_collection`, hence always existing), and the ChromaDB
nearest-neighbour query as an oracle of the query text, `n_results`, and the
optional category filter. -/
structure VectorStore where
  collection : List CollEntry
  searchOracle : String → Nat → Option String → List RetrievedDoc

/-- From `vector_store.py`, `search`: delegate to the ChromaDB query and format
the results (the formatting is folded into the result type of the oracle). -/
def VectorStore.search (vs : VectorStore) (query : String) (top_k : Nat)
    (category_filter : Option String) : List RetrievedDoc :=
  vs.searchOracle query top_k category_filter

/-- From `vector_store.py`, `get_all_categories`: read at most 1000 entries
(`collection.get(limit=1000)`), collect the `category` field of each present
metadata dictionary into a set, and return the sorted list. -/
def VectorStore.get_all_categories (vs : VectorStore) : List String :=
  sortStrings
    (((vs.collection.take 1000).filterMap
      (fun e => e.metadata.bind Metadata.category)).dedup)

/-- Modelled from the spec: "the sorted list of distinct category strings
currently present in the index" — over the whole collection, not a
1000-entry sample.  Used only to compare `get_all_categories` against the
words of the spec. -/
def VectorStore.distinctCategories (vs : VectorStore) : List String :=
  sortStrings
    ((vs.collection.filterMap (fun e => e.metadata.bind Metadata.category)).dedup)

/-! ## `rag/pipeline.py` -/

/-- The orchestrator state: its collaborators plus the mutable
`_llm_available` cache.  `probeCount` is proof instrumentation counting how
often `LLM.is_available` has been invoked on this instance. -/
structure RAGPipeline where
  vector_store : VectorStore
  llm : LLM
  env : NetEnv
  llm_available : Option Bool
  probeCount : Nat

/-- From `pipeline.py`, `__init__`: the availability cache starts out `None`. -/
def RAGPipeline.init (vs : VectorStore) (llm : LLM) (env : NetEnv) : RAGPipeline :=
  { vector_store := vs, llm := llm, env := env
    llm_available := none, probeCount := 0 }

/-- From `pipeline.py`, `check_llm`: probe `is_available` on the first call and
store the result; later calls return the stored value. -/
def RAGPipeline.check_llm (p : RAGPipeline) : Bool × RAGPipeline :=
  match p.llm_available with
  | some b => (b, p)
  | none =>
    (p.llm.is_available p.env,
     { p with llm_available := some (p.llm.is_available p.env)
              probeCount := p.probeCount + 1 })

/-- From `pipeline.py`, `retrieve`: delegate to the vector store search. -/
def RAGPipeline.retrieve (p : RAGPipeline) (query : String) (top_k : Nat)
    (category : Option String) : List RetrievedDoc :=
  p.vector_store.search query top_k category

/-- The labelled context parts built by the loop
`for i, doc in enumerate(retrieved_docs, 1)` in `build_context`. -/
def contextParts : Nat → List RetrievedDoc → List String
  | _, [] => []
  | i, doc :: docs =>
    ("[Source " ++ toString i ++ "]: " ++ doc.document) :: contextParts (i + 1) docs

/-- From `pipeline.py`, `build_context`: empty string for no documents, else the
parts joined with a blank line. -/
def build_context (retrieved_docs : List RetrievedDoc) : String :=
  if retrieved_docs.isEmpty then ""
  else String.intercalate "\n\n" (contextParts 1 retrieved_docs)

/-- From `pipeline.py`, `_fallback_answer`: fixed "no information found" message
for an empty context, else a fixed preamble, the first 1000 characters of
the context, and a trailing ellipsis. -/
def fallback_answer (_query context : String) : String :=
  if context = "" then
    "I couldn\u0027t find relevant information to answer your question."
  else
    "Based on the available information:\n\n" ++ pyTake context 1000 ++ "..."

/-- From `pipeline.py`, `generate_answer`: fallback when `check_llm()` is false,
else delegate to `LLM.generate`.  The updated pipeline state (the
availability cache possibly filled in) is returned alongside. -/
def RAGPipeline.generate_answer (p : RAGPipeline) (query context : String) :
    String × RAGPipeline :=
  let r := p.check_llm
  (if r.1 then r.2.llm.generate r.2.env query context
   else fallback_answer query context,
   r.2)

/-- One entry of the `sources` list of a `query` response. -/
structure SourceEntry where
  name : String
  category : String
  rating : ℚ
  relevance_score : ℚ
deriving DecidableEq

/-- The `metadata` dictionary of a `query` response. -/
structure QueryMetadata where
  total_time_ms : ℚ
  retrieval_time_ms : ℚ
  generation_time_ms : ℚ
  documents_retrieved : Nat
  llm_available : Bool
deriving DecidableEq

/-- The `query` response: answer, metadata, and the optional `sources`
list (present exactly when `return_sources` was requested). -/
structure QueryResult where
  answer : String
  metadata : QueryMetadata
  sources : Option (List SourceEntry)
deriving DecidableEq

/-- Python `round(t * 1000, 2)` over exact rationals (ties round half-up
here where CPython floats round half-even; no claim depends on ties). -/
def roundMs (t : ℚ) : ℚ := (round (t * 1000 * 100) : ℤ) / 100

/-- The `sources` entry `query` builds from one retrieved match:
`dict.get` defaults for absent metadata fields and
`relevance_score = 1 - distance`. -/
def mkSource (doc : RetrievedDoc) : SourceEntry :=
  { name := doc.metadata.name.getD "Unknown"
    category := doc.metadata.category.getD "N/A"
    rating := doc.metadata.rating.getD 0
    relevance_score := 1 - doc.distance }

/-- From `pipeline.py`, `query`: retrieve, build context, generate, assemble the
response.  `clock i` is the value of the i-th `time.time()` call
(0: start, 1: retrieval start, 2: retrieval end, 3: generation start,
4: generation end, 5: total end). -/
def RAGPipeline.query (p : RAGPipeline) (clock : Nat → ℚ) (question : String)
    (top_k : Nat) (category : Option String) (return_sources : Bool) :
    QueryResult × RAGPipeline :=
  let retrieved_docs := p.retrieve question top_k category
  let retrieval_time := clock 2 - clock 1
  let context := build_context retrieved_docs
  let g := p.generate_answer question context
  let generation_time := clock 4 - clock 3
  let total_time := clock 5 - clock 0
  let c2 := g.2.check_llm
  ({ answer := g.1
     metadata :=
       { total_time_ms := roundMs total_time
         retrieval_time_ms := roundMs retrieval_time
         generation_time_ms := roundMs generation_time
         documents_retrieved := retrieved_docs.length
         llm_available := c2.1 }
     sources :=
       if return_sources then some (retrieved_docs.map mkSource) else none },
   c2.2)

/-- One entry of the `sources` event payload of `query_stream`
(no `relevance_score` there). -/
structure StreamSource where
  name : String
  category : String
  rating : ℚ
deriving DecidableEq

/-- The typed events `query_stream` yields. -/
inductive Event where
  | sources (payload : List StreamSource)
  | answer (chunk : String)
  | done (documents_retrieved : Nat)
deriving DecidableEq

/-- The `sources`-event entry `query_stream` builds from one retrieved
match, with the same `dict.get` defaults as `query`. -/
def mkStreamSource (doc : RetrievedDoc) : StreamSource :=
  { name := doc.metadata.name.getD "Unknown"
    category := doc.metadata.category.getD "N/A"
    rating := doc.metadata.rating.getD 0 }

/-- From `pipeline.py`, `query_stream`: yield the `sources` event, then the
answer chunks (the LM stream when reachable, one full fallback text when
not), then the terminal `done` event.  The generator is modelled as the
list of yielded events plus the updated state. -/
def RAGPipeline.query_stream (p : RAGPipeline) (question : String)
    (top_k : Nat) (category : Option String) : List Event × RAGPipeline :=
  let retrieved_docs := p.retrieve question top_k category
  let sources := retrieved_docs.map mkStreamSource
  let context := build_context retrieved_docs
  let r := p.check_llm
  let answerEvents :=
    if r.1 then (r.2.llm.generate_stream r.2.env question context).map Event.answer
    else [Event.answer (fallback_answer question context)]
  (Event.sources sources :: (answerEvents ++ [Event.done retrieved_docs.length]),
   r.2)

/-- From `pipeline.py`, `get_categories`: delegate to the vector store. -/
def RAGPipeline.get_categories (p : RAGPipeline) : List String :=
  p.vector_store.get_all_categories

/-- Event classifiers used to state stream-shape properties. -/
def Event.isSources : Event → Bool
  | .sources _ => true
  | _ => false

/-- Classifier for `answer` events. -/
def Event.isAnswer : Event → Bool
  | .answer _ => true
  | _ => false

/-- Classifier for `done` events. -/
def Event.isDone : Event → Bool
  | .done _ => true
  | _ => false

/-! ## Concrete test fixtures

Concrete environments and pipeline instances used to evaluate the embedded
code on specific inputs. -/

/-- A strictly increasing clock. -/
def clock0 : Nat → ℚ := fun n => (n : ℚ)

/-- The default LLM client of `llm.py` (`LLM()` with the config values). -/
def llm0 : LLM := { model := OLLAMA_MODEL, base_url := OLLAMA_BASE_URL }

/-- A network where every call fails with a transport error: Ollama down. -/
def envDown : NetEnv :=
  { tags := .error "connection refused"
    post := fun _ _ => .error "connection refused"
    postStream := fun _ _ => .error "connection refused" }

/-- A healthy network: the tags listing carries the configured model, the
generate call answers `"LLM says hi"`, and the streaming call returns an
empty line sequence (the server closes the stream without data). -/
def envUp : NetEnv :=
  { tags := .ok { status := 200, models := [OLLAMA_MODEL] }
    post := fun _ _ => .ok { status := 200, response := some "LLM says hi" }
    postStream := fun _ _ => .ok { status := 200, lines := [] } }

/-- A network where the availability probe succeeds but the generation POST
fails with a transport error. -/
def envPostFail : NetEnv :=
  { tags := .ok { status := 200, models := [OLLAMA_MODEL] }
    post := fun _ _ => .error "boom"
    postStream := fun _ _ => .error "boom" }

/-- A retrieved match with text `"x"`, no metadata fields, distance 3. -/
def docX : RetrievedDoc :=
  { document := "x", metadata := { name := none, category := none, rating := none }
    distance := 3, id := none }

/-- An empty index whose nearest-neighbour query returns nothing. -/
def storeEmpty : VectorStore := { collection := [], searchOracle := fun _ _ _ => [] }

/-- A one-document index whose nearest-neighbour query returns `docX`. -/
def storeX : VectorStore :=
  { collection := [{ document := "x", metadata := some docX.metadata }]
    searchOracle := fun _ _ _ => [docX] }

/-- Pipeline over `storeX` with Ollama unreachable. -/
def pDown : RAGPipeline := RAGPipeline.init storeX llm0 envDown

/-- Pipeline over the empty index with Ollama unreachable. -/
def pDownEmpty : RAGPipeline := RAGPipeline.init storeEmpty llm0 envDown

/-- Pipeline over the empty index with Ollama reachable. -/
def pEmptyUp : RAGPipeline := RAGPipeline.init storeEmpty llm0 envUp

/-- Pipeline over `storeX` where the probe succeeds but generation fails. -/
def pPostFail : RAGPipeline := RAGPipeline.init storeX llm0 envPostFail

/-- A collection entry carrying category `"a"`. -/
def catEntryA : CollEntry :=
  { document := "d", metadata := some { name := none, category := some "a", rating := none } }

/-- A collection entry carrying category `"b"`. -/
def catEntryB : CollEntry :=
  { document := "d", metadata := some { name := none, category := some "b", rating := none } }

/-- An index of 1001 documents: category `"b"` occurs only at position 1000,
beyond the 1000-entry sample `get_all_categories` reads. -/
def bigStore : VectorStore :=
  { collection := List.replicate 1000 catEntryA ++ [catEntryB]
    searchOracle := fun _ _ _ => [] }

/-! ## Helper lemmas: the string sort -/

theorem charListLe_total (as : List Char) : ∀ bs,
    charListLe as bs = true ∨ charListLe bs as = true := by
  induction as with
  | nil => intro bs; left; rfl
  | cons a as ih =>
    intro bs
    cases bs with
    | nil => right; rfl
    | cons b bs =>
      by_cases h1 : a.toNat < b.toNat
      · left; simp [charListLe, h1]
      · by_cases h2 : b.toNat < a.toNat
        · right; simp [charListLe, h2]
        · rcases ih bs with h3 | h3
          · left; simp [charListLe, h1, h2, h3]
          · right; simp [charListLe, h1, h2, h3]

theorem charListLe_trans (as : List Char) : ∀ bs cs,
    charListLe as bs = true → charListLe bs cs = true →
    charListLe as cs = true := by
  induction as with
  | nil => intro bs cs _ _; rfl
  | cons a as ih =>
    intro bs cs h1 h2
    cases bs with
    | nil => simp [charListLe] at h1
    | cons b bs =>
      cases cs with
      | nil => simp [charListLe] at h2
      | cons c cs =>
        simp only [charListLe] at h1 h2 ⊢
        by_cases hab : a.toNat < b.toNat
        · by_cases hbc : b.toNat < c.toNat
          · rw [if_pos (by omega)]
          · by_cases hcb : c.toNat < b.toNat
            · rw [if_neg hbc, if_pos hcb] at h2; simp at h2
            · rw [if_pos (by omega)]
        · by_cases hba : b.toNat < a.toNat
          · rw [if_neg hab, if_pos hba] at h1; simp at h1
          · by_cases hbc : b.toNat < c.toNat
            · rw [if_pos (by omega)]
            · by_cases hcb : c.toNat < b.toNat
              · rw [if_neg hbc, if_pos hcb] at h2; simp at h2
              · rw [if_neg (by omega), if_neg (by omega)]
                rw [if_neg hab, if_neg hba] at h1
                rw [if_neg hbc, if_neg hcb] at h2
                exact ih bs cs h1 h2

theorem strLe_total (s t : String) : strLe s t = true ∨ strLe t s = true :=
  charListLe_total s.data t.data

theorem strLe_trans (s t u : String) (h1 : strLe s t = true)
    (h2 : strLe t u = true) : strLe s u = true :=
  charListLe_trans s.data t.data u.data h1 h2

theorem mem_sortInsert (x a : String) (l : List String) :
    x ∈ sortInsert a l ↔ x = a ∨ x ∈ l := by
  induction l with
  | nil => simp [sortInsert]
  | cons b l ih =>
    by_cases h : strLe a b
    · simp [sortInsert, h]
    · simp only [sortInsert, if_neg h, List.mem_cons, ih]
      tauto

theorem sortInsert_perm (a : String) (l : List String) :
    (sortInsert a l).Perm (a :: l) := by
  induction l with
  | nil => exact List.Perm.refl _
  | cons b l ih =>
    by_cases h : strLe a b
    · rw [sortInsert, if_pos h]
    · rw [sortInsert, if_neg h]
      exact (ih.cons b).trans (List.Perm.swap a b l)

theorem sortStrings_perm (l : List String) : (sortStrings l).Perm l := by
  induction l with
  | nil => exact List.Perm.refl _
  | cons a l ih =>
    exact (sortInsert_perm a (sortStrings l)).trans (ih.cons a)

theorem sortInsert_sorted (a : String) (l : List String)
    (h : List.Sorted (fun s t => strLe s t = true) l) :
    List.Sorted (fun s t => strLe s t = true) (sortInsert a l) := by
  induction l with
  | nil => simp [sortInsert]
  | cons b l ih =>
    rw [List.sorted_cons] at h
    by_cases hab : strLe a b
    · rw [sortInsert, if_pos hab, List.sorted_cons]
      refine ⟨?_, List.sorted_cons.mpr h⟩
      intro x hx
      rcases List.mem_cons.mp hx with rfl | hx
      · exact hab
      · exact strLe_trans a b x hab (h.1 x hx)
    · rw [sortInsert, if_neg hab, List.sorted_cons]
      refine ⟨?_, ih h.2⟩
      intro x hx
      rcases (mem_sortInsert x a l).mp hx with rfl | hx
      · rcases strLe_total x b with hx | hx
        · exact absurd hx hab
        · exact hx
      · exact h.1 x hx

theorem sortStrings_sorted (l : List String) :
    List.Sorted (fun s t => strLe s t = true) (sortStrings l) := by
  induction l with
  | nil => exact List.sorted_nil
  | cons a l ih => exact sortInsert_sorted a (sortStrings l) ih

/-! ## Helper lemmas: lists and rounding -/

theorem filterMap_replicate_some {α β : Type} (f : α → Option β) (a : α)
    (b : β) (h : f a = some b) :
    ∀ n, (List.replicate n a).filterMap f = List.replicate n b := by
  intro n
  induction n with
  | zero => rfl
  | succ n ih => simp [List.replicate_succ, List.filterMap_cons, h, ih]

theorem dedup_replicate_succ {α : Type} [DecidableEq α] (a : α) :
    ∀ n, (List.replicate (n + 1) a).dedup = [a] := by
  intro n
  induction n with
  | zero => simp
  | succ n ih =>
    rw [List.replicate_succ,
      List.dedup_cons_of_mem (by simp [List.mem_replicate])]
    exact ih

theorem dedup_replicate_append {α : Type} [DecidableEq α] (a b : α)
    (hab : a ≠ b) :
    ∀ n, (List.replicate (n + 1) a ++ [b]).dedup = [a, b] := by
  intro n
  induction n with
  | zero =>
    rw [show List.replicate 1 a ++ [b] = [a, b] from rfl,
      List.dedup_cons_of_not_mem (by simp [hab])]
    simp
  | succ n ih =>
    rw [List.replicate_succ, List.cons_append,
      List.dedup_cons_of_mem (by simp [List.mem_replicate])]
    exact ih

theorem roundMs_nonneg (t : ℚ) (h : 0 ≤ t) : 0 ≤ roundMs t := by
  have h1 : (0 : ℤ) ≤ round (t * 1000 * 100) := by
    rw [round_eq]
    refine Int.le_floor.mpr ?_
    push_cast
    nlinarith
  unfold roundMs
  positivity

theorem contextParts_getElem? (docs : List RetrievedDoc) :
    ∀ (n i : Nat) (h : i < docs.length),
      (contextParts n docs)[i]? =
        some ("[Source " ++ toString (n + i) ++ "]: " ++ (docs.get ⟨i, h⟩).document) := by
  induction docs with
  | nil => intro n i h; simp at h
  | cons d ds ih =>
    intro n i h
    cases i with
    | zero => simp [contextParts]
    | succ i =>
      have h2 : i < ds.length := by simpa using h
      rw [show contextParts n (d :: ds) =
        ("[Source " ++ toString n ++ "]: " ++ d.document) :: contextParts (n + 1) ds from rfl]
      rw [List.getElem?_cons_succ, ih (n + 1) i h2]
      rw [show n + 1 + i = n + (i + 1) by omega]
      rfl

/-! ## Claims -/

/-- C5: for every retrieved match included in the sources list of a
`query(..., return_sources=True)` result, the reported `relevance_score`
equals `1 − distance` of that match exactly, with no clamping applied. -/
theorem C5_relevance_score_exact (p : RAGPipeline) (clock : Nat → ℚ)
    (question : String) (top_k : Nat) (category : Option String) (i : Nat)
    (h : i < (p.retrieve question top_k category).length) :
    ∃ s d, ((p.query clock question top_k category true).1.sources.getD [])[i]? = some s ∧
      (p.retrieve question top_k category)[i]? = some d ∧
      s.relevance_score = 1 - d.distance := by
  refine ⟨mkSource ((p.retrieve question top_k category).get ⟨i, h⟩),
    (p.retrieve question top_k category).get ⟨i, h⟩, ?_, ?_, rfl⟩
  · have hq : (p.query clock question top_k category true).1.sources =
        some ((p.retrieve question top_k category).map mkSource) := rfl
    rw [hq, Option.getD_some, List.getElem?_map,
      List.getElem?_eq_getElem h]
    rfl
  · rw [List.getElem?_eq_getElem h]
    rfl

/-- Witness for C5 at a concrete one-document pipeline whose match has
distance 3 (so the reported score is the unclamped −2). -/
theorem C5_witness :
    0 < (pDown.retrieve "q" 1 none).length ∧
    ∃ s d, ((pDown.query clock0 "q" 1 none true).1.sources.getD [])[0]? = some s ∧
      (pDown.retrieve "q" 1 none)[0]? = some d ∧
      s.relevance_score = 1 - d.distance :=
  ⟨by decide, C5_relevance_score_exact pDown clock0 "q" 1 none 0 (by decide)⟩

/-- C7: `build_context` returns the empty string on the empty list; on a
non-empty list it joins, with blank lines, one part per document in
retrieval-rank order, the i-th part being the verbatim document text
prefixed with the positional label `[Source i+1]: `; and the context is a
function of the retrieved list alone (prompt determinism). -/
theorem C7_build_context_labels (docs : List RetrievedDoc) (i : Nat)
    (h : i < docs.length) :
    build_context [] = "" ∧
    (docs ≠ [] →
      build_context docs = String.intercalate "\n\n" (contextParts 1 docs)) ∧
    (contextParts 1 docs)[i]? =
      some ("[Source " ++ toString (i + 1) ++ "]: " ++ (docs.get ⟨i, h⟩).document) ∧
    (∀ docs2 : List RetrievedDoc, docs2 = docs →
      build_context docs2 = build_context docs) := by
  refine ⟨rfl, ?_, ?_, ?_⟩
  · intro hne
    rw [build_context, if_neg (by simpa [List.isEmpty_iff] using hne)]
  · rw [contextParts_getElem? docs 1 i h, Nat.add_comm 1 i]
  · intro docs2 h2
    rw [h2]

/-- Witness for C7 at the one-document retrieval of `pDown`. -/
theorem C7_witness :
    0 < [docX].length ∧
    (build_context [] = "" ∧
    ([docX] ≠ ([] : List RetrievedDoc) →
      build_context [docX] = String.intercalate "\n\n" (contextParts 1 [docX])) ∧
    (contextParts 1 [docX])[0]? =
      some ("[Source " ++ toString (0 + 1) ++ "]: " ++ ([docX].get ⟨0, by decide⟩).document) ∧
    (∀ docs2 : List RetrievedDoc, docs2 = [docX] →
      build_context docs2 = build_context [docX])) :=
  ⟨by decide, C7_build_context_labels [docX] 0 (by decide)⟩

/-- C10: both the `sources` list of `query(..., return_sources=True)` and
the `sources` event of `query_stream` are built from the metadata of the matches
with fixed defaults for absent fields — name `"Unknown"`, category `"N/A"`,
rating 0 — so absent metadata fields always yield a well-formed entry. -/
theorem C10_source_metadata_defaults (p : RAGPipeline) (clock : Nat → ℚ)
    (question : String) (top_k : Nat) (category : Option String) :
    (p.query clock question top_k category true).1.sources =
      some ((p.retrieve question top_k category).map mkSource) ∧
    (p.query_stream question top_k category).1.head? =
      some (Event.sources ((p.retrieve question top_k category).map mkStreamSource)) ∧
    (∀ (text : String) (dist : ℚ) (idv : Option String),
      mkSource ⟨text, ⟨none, none, none⟩, dist, idv⟩ =
        ⟨"Unknown", "N/A", 0, 1 - dist⟩ ∧
      mkStreamSource ⟨text, ⟨none, none, none⟩, dist, idv⟩ =
        ⟨"Unknown", "N/A", 0⟩) :=
  ⟨rfl, rfl, fun _ _ _ => ⟨rfl, rfl⟩⟩

/-- C6: the orchestrator probes LM reachability at most once per instance:
the first `check_llm` stores the probe result, a second `check_llm` returns
the stored value without probing (state unchanged), a whole `query` or
`query_stream` performs at most one probe, and on an instance whose cache
is filled no further probe ever happens. -/
theorem C6_availability_probed_once (p : RAGPipeline) (clock : Nat → ℚ)
    (question : String) (top_k : Nat) (category : Option String)
    (return_sources : Bool) :
    p.check_llm.2.check_llm = (p.check_llm.1, p.check_llm.2) ∧
    p.check_llm.2.probeCount ≤ p.probeCount + 1 ∧
    (p.query clock question top_k category return_sources).2.probeCount ≤
      p.probeCount + 1 ∧
    (p.check_llm.2.query clock question top_k category return_sources).2.probeCount =
      p.check_llm.2.probeCount ∧
    (p.check_llm.2.query_stream question top_k category).2.probeCount =
      p.check_llm.2.probeCount := by
  rcases hp : p.llm_available with _ | b <;>
    refine ⟨?_, ?_, ?_, ?_, ?_⟩ <;>
      simp [RAGPipeline.check_llm, RAGPipeline.query, RAGPipeline.generate_answer,
        RAGPipeline.query_stream, hp]

/-- C9: the result of `query` carries `sources` iff `return_sources` was
requested, `return_sources` affects neither the answer nor the metadata,
and the three timing fields are populated and non-negative whenever the
clock readings are monotone. -/
theorem C9_sources_flag_and_timings (p : RAGPipeline) (clock : Nat → ℚ)
    (question : String) (top_k : Nat) (category : Option String)
    (hmono : ∀ i j, i ≤ j → clock i ≤ clock j) :
    (p.query clock question top_k category false).1.sources = none ∧
    ((p.query clock question top_k category true).1.sources).isSome = true ∧
    (p.query clock question top_k category true).1.answer =
      (p.query clock question top_k category false).1.answer ∧
    (p.query clock question top_k category true).1.metadata =
      (p.query clock question top_k category false).1.metadata ∧
    (∀ return_sources,
      0 ≤ (p.query clock question top_k category return_sources).1.metadata.total_time_ms ∧
      0 ≤ (p.query clock question top_k category return_sources).1.metadata.retrieval_time_ms ∧
      0 ≤ (p.query clock question top_k category return_sources).1.metadata.generation_time_ms) := by
  refine ⟨rfl, rfl, rfl, rfl, ?_⟩
  intro return_sources
  refine ⟨roundMs_nonneg _ ?_, roundMs_nonneg _ ?_, roundMs_nonneg _ ?_⟩
  · exact sub_nonneg.mpr (hmono 0 5 (by omega))
  · exact sub_nonneg.mpr (hmono 1 2 (by omega))
  · exact sub_nonneg.mpr (hmono 3 4 (by omega))

/-- Witness for C9 at `pDown` with the strictly increasing clock. -/
theorem C9_witness :
    (∀ i j, i ≤ j → clock0 i ≤ clock0 j) ∧
    ((pDown.query clock0 "q" 3 none false).1.sources = none ∧
    ((pDown.query clock0 "q" 3 none true).1.sources).isSome = true ∧
    (pDown.query clock0 "q" 3 none true).1.answer =
      (pDown.query clock0 "q" 3 none false).1.answer ∧
    (pDown.query clock0 "q" 3 none true).1.metadata =
      (pDown.query clock0 "q" 3 none false).1.metadata ∧
    (∀ return_sources,
      0 ≤ (pDown.query clock0 "q" 3 none return_sources).1.metadata.total_time_ms ∧
      0 ≤ (pDown.query clock0 "q" 3 none return_sources).1.metadata.retrieval_time_ms ∧
      0 ≤ (pDown.query clock0 "q" 3 none return_sources).1.metadata.generation_time_ms)) :=
  ⟨fun i j h => by simp only [clock0]; exact_mod_cast h,
   C9_sources_flag_and_timings pDown clock0 "q" 3 none
     (fun i j h => by simp only [clock0]; exact_mod_cast h)⟩

/-- C1, counterexample: with the LM unreachable and a non-empty context,
the answer of `query()` is NOT a preamble followed byte-for-byte by the
first 1000 characters of the context and nothing else — no choice of
preamble makes the truncated context the final segment, because the code
appends a three-character ellipsis `"..."` after the excerpt. -/
theorem C1_counterexample :
    ¬ ∃ preamble : String,
      (pDown.query clock0 "q" 3 none false).1.answer =
        preamble ++ pyTake (build_context (pDown.retrieve "q" 3 none)) 1000 := by
  rintro ⟨P, h⟩
  have hs : pyTake (build_context (pDown.retrieve "q" 3 none)) 1000 =
      "[Source 1]: x" := by decide
  rw [hs] at h
  have hd := congrArg String.data h
  rw [String.data_append] at hd
  have h1 : ((pDown.query clock0 "q" 3 none false).1.answer).data.getLast? =
      some '.' := by decide
  rw [hd, List.getLast?_append] at h1
  have h2 : ("[Source 1]: x".data.getLast?) = some 'x' := by decide
  rw [h2] at h1
  have h3 : Option.or (some 'x') (P.data.getLast?) = some 'x' := rfl
  rw [h3] at h1
  exact absurd h1 (by decide)

/-- C1, amended: when the LM is unreachable and the retrieved context is
non-empty, the answer of `query()` is the fixed preamble, then byte-for-byte
the first `min(1000, |context|)` characters of the context, then the fixed
three-character suffix `"..."`. -/
theorem C1_fallback_truncation (p : RAGPipeline) (clock : Nat → ℚ)
    (question : String) (top_k : Nat) (category : Option String)
    (return_sources : Bool)
    (hunavail : p.check_llm.1 = false)
    (hctx : build_context (p.retrieve question top_k category) ≠ "") :
    (p.query clock question top_k category return_sources).1.answer =
      "Based on the available information:\n\n" ++
        pyTake (build_context (p.retrieve question top_k category)) 1000 ++ "..." := by
  show (p.generate_answer question
    (build_context (p.retrieve question top_k category))).1 = _
  simp only [RAGPipeline.generate_answer, hunavail, Bool.false_eq_true,
    if_false, fallback_answer, if_neg hctx]

/-- Witness for the amended C1 at the unreachable-LM pipeline `pDown`. -/
theorem C1_witness :
    (pDown.check_llm.1 = false ∧
      build_context (pDown.retrieve "q" 3 none) ≠ "") ∧
    (pDown.query clock0 "q" 3 none false).1.answer =
      "Based on the available information:\n\n" ++
        pyTake (build_context (pDown.retrieve "q" 3 none)) 1000 ++ "..." :=
  ⟨⟨by decide, by decide⟩,
   C1_fallback_truncation pDown clock0 "q" 3 none false (by decide) (by decide)⟩

/-- C2, counterexample: with zero indexed documents but a reachable LM,
`query()` does not return the fixed "no information found" message — it
calls the LM on the bare question and returns whatever that generated. -/
theorem C2_counterexample :
    (pEmptyUp.query clock0 "q" 3 none false).1.answer = "LLM says hi" ∧
    ("LLM says hi" : String) ≠
      "I couldn\u0027t find relevant information to answer your question." := by
  constructor <;> decide

/-- C2, amended: with zero indexed documents, `metadata.documents_retrieved`
is 0 for any non-empty question; the answer is the fixed "no information
found" message when additionally the LM is unreachable.  The hypothesis
`hsearch` is the ChromaDB guarantee that a query against an empty
collection returns no matches. -/
theorem C2_empty_index_fallback (p : RAGPipeline) (clock : Nat → ℚ)
    (question : String) (top_k : Nat) (category : Option String)
    (return_sources : Bool)
    (_hempty : p.vector_store.collection = [])
    (hsearch : ∀ q k c, p.vector_store.searchOracle q k c = []) :
    (p.query clock question top_k category return_sources).1.metadata.documents_retrieved = 0 ∧
    (p.check_llm.1 = false →
      (p.query clock question top_k category return_sources).1.answer =
        "I couldn\u0027t find relevant information to answer your question.") := by
  have hret : p.retrieve question top_k category = [] := hsearch question top_k category
  constructor
  · show (p.retrieve question top_k category).length = 0
    rw [hret]
    rfl
  · intro hun
    show (p.generate_answer question
      (build_context (p.retrieve question top_k category))).1 = _
    rw [hret]
    simp only [RAGPipeline.generate_answer, hun, Bool.false_eq_true, if_false,
      fallback_answer, build_context, List.isEmpty_nil, if_pos rfl, if_true]

/-- Witness for the amended C2 at the empty-index unreachable-LM pipeline. -/
theorem C2_witness :
    (pDownEmpty.vector_store.collection = [] ∧ pDownEmpty.check_llm.1 = false) ∧
    (pDownEmpty.query clock0 "q" 3 none false).1.metadata.documents_retrieved = 0 ∧
    (pDownEmpty.check_llm.1 = false →
      (pDownEmpty.query clock0 "q" 3 none false).1.answer =
        "I couldn\u0027t find relevant information to answer your question.") :=
  ⟨⟨rfl, by decide⟩,
   C2_empty_index_fallback pDownEmpty clock0 "q" 3 none false rfl
     (fun _ _ _ => rfl)⟩

/-- C3, counterexample: a transport error on the language-model generation
call (after a successful availability probe) is caught, but the answer it is
converted into is the error-message string, not the fallback answer. -/
theorem C3_counterexample :
    (pPostFail.query clock0 "q" 3 none false).1.answer =
      "Error communicating with Ollama: boom" ∧
    (pPostFail.query clock0 "q" 3 none false).1.answer ≠
      fallback_answer "q" (build_context (pPostFail.retrieve "q" 3 none)) := by
  constructor <;> decide

/-- C3, amended: `query()` is total — every downstream transport failure is
caught inside the pipeline and converted into an answer string, never
propagated.  A failed availability probe degrades to the fallback answer; a
transport error on the generation call itself (probe succeeded) is caught
in the LM client and surfaces as the error-message answer
`"Error communicating with Ollama: ..."`, not as the fallback answer. -/
theorem C3_failures_caught (p : RAGPipeline) (clock : Nat → ℚ)
    (question : String) (top_k : Nat) (category : Option String)
    (return_sources : Bool) (e : String) :
    (p.llm_available = none → p.env.tags = .error e →
      (p.query clock question top_k category return_sources).1.answer =
        fallback_answer question (build_context (p.retrieve question top_k category))) ∧
    (p.check_llm.1 = true → (∀ m pr, p.env.post m pr = .error e) →
      (p.query clock question top_k category return_sources).1.answer =
        "Error communicating with Ollama: " ++ e) := by
  constructor
  · intro hcache htags
    show (p.generate_answer question
      (build_context (p.retrieve question top_k category))).1 = _
    simp only [RAGPipeline.generate_answer, RAGPipeline.check_llm, hcache,
      LLM.is_available, htags, Bool.false_eq_true, if_false]
  · intro hav hpost
    show (p.generate_answer question
      (build_context (p.retrieve question top_k category))).1 = _
    rcases hp : p.llm_available with _ | b
    · simp only [RAGPipeline.check_llm, hp] at hav
      simp only [RAGPipeline.generate_answer, RAGPipeline.check_llm, hp, hav,
        if_true, LLM.generate, LLM.generateRaw, hpost]
    · simp only [RAGPipeline.check_llm, hp] at hav
      simp only [RAGPipeline.generate_answer, RAGPipeline.check_llm, hp, hav,
        if_true, LLM.generate, LLM.generateRaw, hpost]

/-- Witness for the amended C3 at the probe-up generation-down pipeline. -/
theorem C3_witness :
    (pPostFail.check_llm.1 = true ∧ (∀ m pr, pPostFail.env.post m pr = .error "boom")) ∧
    (pPostFail.query clock0 "q" 3 none false).1.answer =
      "Error communicating with Ollama: boom" :=
  ⟨⟨by decide, fun _ _ => rfl⟩,
   (C3_failures_caught pPostFail clock0 "q" 3 none false "boom").2
     (by decide) (fun _ _ => rfl)⟩

/-- Shape facts about an event list of the form produced by
`query_stream`: a `sources` head, a block of `answer` events, a terminal
`done`. -/
theorem stream_shape_aux (s : List StreamSource) (chunks : List String) (n : Nat) :
    (Event.sources s :: (chunks.map Event.answer ++ [Event.done n])).head? =
      some (Event.sources s) ∧
    (Event.sources s :: (chunks.map Event.answer ++ [Event.done n])).getLast? =
      some (Event.done n) ∧
    ((Event.sources s :: (chunks.map Event.answer ++ [Event.done n])).drop 1).dropLast.all
      Event.isAnswer = true ∧
    (Event.sources s :: (chunks.map Event.answer ++ [Event.done n])).countP
      Event.isSources = 1 ∧
    (Event.sources s :: (chunks.map Event.answer ++ [Event.done n])).countP
      Event.isDone = 1 := by
  have hzero : ∀ (pred : Event → Bool), (∀ c : String, pred (Event.answer c) = false) →
      List.countP pred (chunks.map Event.answer) = 0 := by
    intro pred hp
    rw [List.countP_map]
    refine List.countP_eq_zero.mpr ?_
    intro a _
    simp [Function.comp, hp a]
  refine ⟨rfl, ?_, ?_, ?_, ?_⟩
  · rw [← List.cons_append, List.getLast?_concat]
  · show (chunks.map Event.answer ++ [Event.done n]).dropLast.all Event.isAnswer = true
    rw [List.dropLast_concat, List.all_eq_true]
    intro x hx
    rcases List.mem_map.mp hx with ⟨c, _, rfl⟩
    rfl
  · rw [List.countP_cons, List.countP_append, hzero Event.isSources (fun _ => rfl)]
    rfl
  · rw [List.countP_cons, List.countP_append, hzero Event.isDone (fun _ => rfl)]
    rfl

/-- C4, counterexample: with a reachable LM whose token stream contains no
chunks, `query_stream` emits zero `answer` events — the claimed "one or
more answer events" fails. -/
theorem C4_counterexample :
    (pEmptyUp.query_stream "q" 3 none).1 = [Event.sources [], Event.done 0] ∧
    (pEmptyUp.query_stream "q" 3 none).1.countP Event.isAnswer = 0 := by
  constructor <;> decide

/-- C4, amended: `query_stream` always emits exactly one `sources` event
first, then zero or more `answer` events, then exactly one terminal `done`
event; when the LM is unreachable the answer block is exactly one event
carrying the full fallback text. -/
theorem C4_stream_event_shape (p : RAGPipeline) (question : String)
    (top_k : Nat) (category : Option String) :
    (p.query_stream question top_k category).1.head? =
      some (Event.sources ((p.retrieve question top_k category).map mkStreamSource)) ∧
    (p.query_stream question top_k category).1.getLast? =
      some (Event.done (p.retrieve question top_k category).length) ∧
    ((p.query_stream question top_k category).1.drop 1).dropLast.all
      Event.isAnswer = true ∧
    (p.query_stream question top_k category).1.countP Event.isSources = 1 ∧
    (p.query_stream question top_k category).1.countP Event.isDone = 1 ∧
    (p.check_llm.1 = false →
      ((p.query_stream question top_k category).1.drop 1).dropLast =
        [Event.answer (fallback_answer question
          (build_context (p.retrieve question top_k category)))]) := by
  have hev : (p.query_stream question top_k category).1 =
      Event.sources ((p.retrieve question top_k category).map mkStreamSource) ::
        ((if p.check_llm.1 = true then
            (p.check_llm.2.llm.generate_stream p.check_llm.2.env question
              (build_context (p.retrieve question top_k category))).map Event.answer
          else
            [Event.answer (fallback_answer question
              (build_context (p.retrieve question top_k category)))]) ++
          [Event.done (p.retrieve question top_k category).length]) := rfl
  cases hb : p.check_llm.1 with
  | true =>
    rw [hb] at hev
    simp only [if_true] at hev
    have h := stream_shape_aux ((p.retrieve question top_k category).map mkStreamSource)
      (p.check_llm.2.llm.generate_stream p.check_llm.2.env question
        (build_context (p.retrieve question top_k category)))
      (p.retrieve question top_k category).length
    rw [hev]
    refine ⟨h.1, h.2.1, h.2.2.1, h.2.2.2.1, h.2.2.2.2, ?_⟩
    intro hcon
    exact absurd hcon (by decide)
  | false =>
    rw [hb] at hev
    simp only [Bool.false_eq_true, if_false] at hev
    have h := stream_shape_aux ((p.retrieve question top_k category).map mkStreamSource)
      [fallback_answer question (build_context (p.retrieve question top_k category))]
      (p.retrieve question top_k category).length
    rw [show ([fallback_answer question
        (build_context (p.retrieve question top_k category))]).map Event.answer =
      [Event.answer (fallback_answer question
        (build_context (p.retrieve question top_k category)))] from rfl] at h
    rw [hev]
    exact ⟨h.1, h.2.1, h.2.2.1, h.2.2.2.1, h.2.2.2.2, fun _ => rfl⟩

/-- Witness for the amended C4 at the unreachable-LM pipeline `pDown`. -/
theorem C4_witness :
    pDown.check_llm.1 = false ∧
    ((pDown.query_stream "q" 3 none).1.drop 1).dropLast =
      [Event.answer (fallback_answer "q" (build_context (pDown.retrieve "q" 3 none)))] :=
  ⟨by decide, (C4_stream_event_shape pDown "q" 3 none).2.2.2.2.2 (by decide)⟩

/-- C8, counterexample: on an index of 1001 documents whose 1001st document
carries the only occurrence of category `"b"`, `get_all_categories` misses
`"b"` — it samples at most 1000 entries — so it is not the sorted list of
distinct categories currently present in the index. -/
theorem C8_counterexample :
    bigStore.get_all_categories = ["a"] ∧
    bigStore.distinctCategories = ["a", "b"] ∧
    bigStore.get_all_categories ≠ bigStore.distinctCategories := by
  have hf : (fun (e : CollEntry) => e.metadata.bind Metadata.category) catEntryA =
      some "a" := rfl
  have htake : ((List.replicate 1000 catEntryA ++ [catEntryB]).take 1000) =
      List.replicate 1000 catEntryA :=
    List.take_left' (List.length_replicate 1000 catEntryA)
  have h1 : bigStore.get_all_categories = ["a"] := by
    show sortStrings (((List.replicate 1000 catEntryA ++ [catEntryB]).take 1000).filterMap
      (fun e => e.metadata.bind Metadata.category)).dedup = ["a"]
    rw [htake, filterMap_replicate_some _ catEntryA "a" hf 1000,
      show (1000 : Nat) = 999 + 1 from rfl, dedup_replicate_succ "a" 999]
    decide
  have h2 : bigStore.distinctCategories = ["a", "b"] := by
    show sortStrings ((List.replicate 1000 catEntryA ++ [catEntryB]).filterMap
      (fun e => e.metadata.bind Metadata.category)).dedup = ["a", "b"]
    rw [List.filterMap_append, filterMap_replicate_some _ catEntryA "a" hf 1000,
      show (List.filterMap (fun (e : CollEntry) => e.metadata.bind Metadata.category)
        [catEntryB]) = ["b"] from rfl,
      show (1000 : Nat) = 999 + 1 from rfl,
      dedup_replicate_append "a" "b" (by decide) 999]
    decide
  refine ⟨h1, h2, ?_⟩
  rw [h1, h2]
  decide

/-- C8, amended: `get_all_categories` returns the sorted duplicate-free
list of the category strings among the first 1000 entries of the index (the
code reads a 1000-document sample), and, being a pure function of the
index, two calls without an intervening mutation return identical lists. -/
theorem C8_categories_sample_sorted (vs : VectorStore) (c : String) :
    vs.get_all_categories = vs.get_all_categories ∧
    List.Sorted (fun a b => strLe a b = true) vs.get_all_categories ∧
    vs.get_all_categories.Nodup ∧
    (c ∈ vs.get_all_categories ↔
      c ∈ (vs.collection.take 1000).filterMap (fun e => e.metadata.bind Metadata.category)) := by
  refine ⟨rfl, sortStrings_sorted _, ?_, ?_⟩
  · exact ((sortStrings_perm _).nodup_iff).mpr (List.nodup_dedup _)
  · show c ∈ sortStrings (((vs.collection.take 1000).filterMap
      (fun e => e.metadata.bind Metadata.category)).dedup) ↔ _
    rw [(sortStrings_perm _).mem_iff, List.mem_dedup]

end CityGuide
